import Mathlib

/-!
Verification of `generate_icon.py` (TrollNFC icon-asset generator).

The script is a straight-line procedure: create the output directory tree,
render a 1024x1024 RGB canvas (background fill, six arc strokes, best-effort
centered text), save the bitmap, and write two JSON manifests.  We embed it
shallowly: the canvas is modelled as its mode/size/background plus the ordered
list of drawing operations issued against it; the imaging library's fallible
calls (font loading, text measurement, text rendering) are modelled by an
`Env` record giving each call's outcome; the run produces an ordered trace of
filesystem and console effects.  JSON documents are modelled by an AST
mirroring the Python dict/list/str/int values, serialized exactly as
`json.dump(obj, f, indent=2)` does, and re-parsed by an executable parser to
settle the "when parsed" claims.
-/

/-- JSON values as Python's `json` module sees the script's data: objects keep
their (insertion-ordered) key list, numbers here are integers. -/
inductive Json where
  | str : String → Json
  | num : Int → Json
  | arr : List Json → Json
  | obj : List (String × Json) → Json
deriving Repr

/-- Opening brace character (written via its code point). -/
def lbrace : Char := '\x7b'

/-- Closing brace character (written via its code point). -/
def rbrace : Char := '\x7d'

/-- Escape of a single character inside a JSON string, as Python's
`json.dump` produces for the ASCII data this script serializes. -/
def escChar (c : Char) : String :=
  if c = '"' then "\\\""
  else if c = '\\' then "\\\\"
  else if c = '\n' then "\\n"
  else if c = '\t' then "\\t"
  else if c = '\r' then "\\r"
  else String.singleton c

/-- A JSON string literal: quoted, characters escaped. -/
def jstr (s : String) : String :=
  "\"" ++ String.join (s.data.map escChar) ++ "\""

/-- Indentation produced by `json.dump(..., indent=2)` at nesting level `n`. -/
def indentStr (n : Nat) : String :=
  String.join (List.replicate n "  ")

mutual

/-- Serialization mirroring Python `json.dump(obj, f, indent=2)` (with its
default separators `(",", ": ")` when an indent is given) at nesting
level `lvl`. -/
def renderJson : Nat → Json → String
  | _, Json.str s => jstr s
  | _, Json.num n => toString n
  | lvl, Json.arr xs =>
    match xs with
    | [] => "[]"
    | _ => "[\n" ++ renderItems (lvl + 1) xs ++ "\n" ++ indentStr lvl ++ "]"
  | lvl, Json.obj kvs =>
    match kvs with
    | [] => String.singleton lbrace ++ String.singleton rbrace
    | _ =>
      String.singleton lbrace ++ "\n" ++ renderFields (lvl + 1) kvs ++ "\n" ++
        indentStr lvl ++ String.singleton rbrace

/-- Array elements, comma-newline separated, each on its own indented line. -/
def renderItems : Nat → List Json → String
  | _, [] => ""
  | lvl, [x] => indentStr lvl ++ renderJson lvl x
  | lvl, x :: y :: xs =>
    indentStr lvl ++ renderJson lvl x ++ ",\n" ++ renderItems lvl (y :: xs)

/-- Object fields, comma-newline separated, `"key": value` on indented lines. -/
def renderFields : Nat → List (String × Json) → String
  | _, [] => ""
  | lvl, [(k, v)] => indentStr lvl ++ jstr k ++ ": " ++ renderJson lvl v
  | lvl, (k, v) :: kv :: kvs =>
    indentStr lvl ++ jstr k ++ ": " ++ renderJson lvl v ++ ",\n" ++
      renderFields lvl (kv :: kvs)

end

/-- Lookup of a key in a JSON object (first occurrence), `none` otherwise. -/
def Json.getKey : Json → String → Option Json
  | Json.obj kvs, k => (kvs.find? (fun kv => kv.1 = k)).map Prod.snd
  | _, _ => none

/-- The list of keys of a JSON object, in order; `none` for non-objects. -/
def Json.keys : Json → Option (List String)
  | Json.obj kvs => some (kvs.map Prod.fst)
  | _ => none

/-- The elements of a JSON array, `none` for non-arrays. -/
def Json.elems : Json → Option (List Json)
  | Json.arr xs => some xs
  | _ => none

/-- The payload of a JSON string, `none` otherwise. -/
def Json.asStr : Json → Option String
  | Json.str s => some s
  | _ => none

/-! ## Program constants (`generate_icon.py`, configuration block) -/

/-- Python `os.path.join` for the forward-slash paths this script builds. -/
def ospathjoin (a b : String) : String := a ++ "/" ++ b

/-- Source: `base_dir = "TrollNFC/Assets.xcassets"`. -/
def base_dir : String := "TrollNFC/Assets.xcassets"

/-- Source: `icon_set_dir = os.path.join(base_dir, "AppIcon.appiconset")`. -/
def icon_set_dir : String := ospathjoin base_dir "AppIcon.appiconset"

/-- Source: `icon_filename = "icon.png"`. -/
def icon_filename : String := "icon.png"

/-- Source: `size = 1024` (the square canvas side). -/
def size : Int := 1024

/-- Source: `center = size // 2`. -/
def center : Int := size / 2

/-- Source: `font_size = 180`. -/
def font_size : Int := 180

/-- Source: `text = "TrollNFC"` (the label drawn on the icon). -/
def text : String := "TrollNFC"

/-! ## Canvas model

The canvas is modelled abstractly: its mode, dimensions and uniform initial
background, plus the ordered list of drawing operations issued against it
(arc strokes and text draws).  Rasterization itself is outside the embedding;
every parameter the script passes to the imaging library is recorded. -/

/-- An RGB color triple. -/
abbrev Color := Int × Int × Int

/-- The font object handed to the drawing calls: either a truetype font
loaded from a named file at a pixel size, or the library default font. -/
inductive FontChoice where
  | truetype : String → Int → FontChoice
  | default_font : FontChoice
deriving Repr, DecidableEq

/-- One drawing operation issued against the canvas.
`arc bbox start stop fill width` records `draw.arc(bbox, start, stop, ...)`
(`stop` stands for the Python keyword argument `end`);
`textDraw pos s font fill` records `draw.text(pos, s, ...)`. -/
inductive DrawOp where
  | arc : (Int × Int × Int × Int) → Int → Int → Color → Int → DrawOp
  | textDraw : (ℚ × ℚ) → String → FontChoice → Color → DrawOp
deriving Repr, DecidableEq

/-- The in-memory image: creation parameters plus the ordered drawing ops. -/
structure PILImage where
  mode : String
  width : Int
  height : Int
  background : Color
  ops : List DrawOp
deriving Repr, DecidableEq

/-- Source: `Image.new('RGB', (size, size), color=...)`. -/
def imageNew (mode : String) (w h : Int) (bg : Color) : PILImage :=
  ⟨mode, w, h, bg, []⟩

/-- Source: `draw.arc(bbox, start=.., end=.., fill=.., width=..)`. -/
def drawArc (img : PILImage) (bbox : Int × Int × Int × Int)
    (start stop : Int) (fill : Color) (width : Int) : PILImage :=
  ⟨img.mode, img.width, img.height, img.background,
    img.ops ++ [DrawOp.arc bbox start stop fill width]⟩

/-- Source: `draw.text(pos, text, font=font, fill=..)`. -/
def drawTextOp (img : PILImage) (pos : ℚ × ℚ) (s : String)
    (font : FontChoice) (fill : Color) : PILImage :=
  ⟨img.mode, img.width, img.height, img.background,
    img.ops ++ [DrawOp.textDraw pos s font fill]⟩

/-- Source: `for r in [300, 220, 140]`. -/
def arcRadii : List Int := [300, 220, 140]

/-- Source loop body: for each radius, a bounding box centred on the canvas
and two arc strokes, `start=-60, end=60` and `start=120, end=240`, blue
fill `(0, 122, 255)`, width 40. -/
def drawRings (img0 : PILImage) : PILImage :=
  arcRadii.foldl
    (fun img r =>
      let bbox := (center - r, center - r, center + r, center + r)
      let img2 := drawArc img bbox (-60) 60 (0, 122, 255) 40
      drawArc img2 bbox 120 240 (0, 122, 255) 40)
    img0

/-- The arc operations of an image, in issue order. -/
def PILImage.arcs (img : PILImage) : List DrawOp :=
  img.ops.filter (fun op => match op with | DrawOp.arc _ _ _ _ _ => true | _ => false)

/-- The text operations of an image, in issue order. -/
def PILImage.texts (img : PILImage) : List DrawOp :=
  img.ops.filter (fun op => match op with | DrawOp.textDraw _ _ _ _ => true | _ => false)

/-! ## Environment and the text-drawing step

The imaging library's fallible calls are modelled by an `Env` record giving
the outcome of each call the script can make: `Except.error e` means the
call raises an exception rendered as `e`. -/

/-- Outcomes of the library calls inside the text-drawing block. -/
structure Env where
  truetype : Except String Unit
  load_default : Except String Unit
  textbbox : Except String (Int × Int × Int × Int)
  draw_text : Except String Unit

/-- The warning the outer `except Exception as e` branch prints:
`f"Warning: Could not draw text properly: {e}"`. -/
def warningMsg (e : String) : String :=
  "Warning: Could not draw text properly: " ++ e

/-- The text-drawing block (source lines 27-43): the inner `try` loads
`arial.ttf` at `font_size` and falls back to `ImageFont.load_default()` on
any exception; the outer `try` measures the text with
`draw.textbbox((0, 0), text, font=font)`, computes the draw position
`((size - text_w) / 2, (size - text_h) / 2)` and draws the text; any
exception escaping the outer `try` is caught and turned into a printed
warning, skipping the rest of the block.  Returns the text operation
performed (if any) and the warnings printed. -/
def textStep (env : Env) : Option DrawOp × List String :=
  let fontRes : Except String FontChoice :=
    match env.truetype with
    | Except.ok _ => Except.ok (FontChoice.truetype "arial.ttf" font_size)
    | Except.error _ =>
      match env.load_default with
      | Except.ok _ => Except.ok FontChoice.default_font
      | Except.error e => Except.error e
  match fontRes with
  | Except.error e => (none, [warningMsg e])
  | Except.ok font =>
    match env.textbbox with
    | Except.error e => (none, [warningMsg e])
    | Except.ok (l, t, r, b) =>
      let text_w : Int := r - l
      let text_h : Int := b - t
      match env.draw_text with
      | Except.error e => (none, [warningMsg e])
      | Except.ok _ =>
        (some (DrawOp.textDraw
          (((size : ℚ) - (text_w : ℚ)) / 2, ((size : ℚ) - (text_h : ℚ)) / 2)
          text font (255, 255, 255)), [])

/-- The canvas as it stands after the background fill and the ring loop
(source lines 14-24), before the text block. -/
def baseImage : PILImage :=
  drawRings (imageNew "RGB" size size (20, 20, 20))

/-- The canvas at save time: the base image, plus the text operation if the
text block performed one. -/
def finalImage (env : Env) : PILImage :=
  match (textStep env).1 with
  | some (DrawOp.textDraw pos s font fill) => drawTextOp baseImage pos s font fill
  | _ => baseImage

/-! ## The two JSON documents (source lines 49-110 and 116-121) -/

/-- One entry of the `"images"` array of the icon-set `Contents.json`,
with the source's key order. -/
def imageEntry (sz idm fn sc : String) : Json :=
  Json.obj
    [("size", Json.str sz), ("idiom", Json.str idm),
     ("filename", Json.str fn), ("scale", Json.str sc)]

/-- Source: the `contents` dict written to `AppIcon.appiconset/Contents.json`. -/
def contents : Json :=
  Json.obj
    [("images", Json.arr
        [imageEntry "20x20" "iphone" icon_filename "2x",
         imageEntry "20x20" "iphone" icon_filename "3x",
         imageEntry "29x29" "iphone" icon_filename "2x",
         imageEntry "29x29" "iphone" icon_filename "3x",
         imageEntry "40x40" "iphone" icon_filename "2x",
         imageEntry "40x40" "iphone" icon_filename "3x",
         imageEntry "60x60" "iphone" icon_filename "2x",
         imageEntry "60x60" "iphone" icon_filename "3x",
         imageEntry "1024x1024" "ios-marketing" icon_filename "1x"]),
     ("info", Json.obj [("author", Json.str "xcode"), ("version", Json.num 1)])]

/-- Source: the `assets_info` dict written to the catalog-root `Contents.json`. -/
def assets_info : Json :=
  Json.obj [("info", Json.obj [("author", Json.str "xcode"), ("version", Json.num 1)])]

/-! ## Filesystem model and the run -/

/-- Split a character list at every occurrence of `sep`. -/
def splitChars (sep : Char) : List Char → List (List Char)
  | [] => [[]]
  | c :: cs =>
    let r := splitChars sep cs
    if c = sep then [] :: r
    else
      match r with
      | [] => [[c]]
      | g :: gs => (c :: g) :: gs

/-- Join path components with `/`. -/
def joinSlash : List String → String
  | [] => ""
  | [x] => x
  | x :: y :: xs => x ++ "/" ++ joinSlash (y :: xs)

/-- The directories that make up `path` from the outside in:
every prefix of `path` at a `/` boundary, as `os.makedirs` creates them. -/
def ancestorPaths (path : String) : List String :=
  let comps := (splitChars '/' path.data).map String.mk
  (List.range comps.length).map (fun i => joinSlash (comps.take (i + 1)))

/-- Python `os.makedirs(path, exist_ok=...)` over a filesystem modelled as
the list of existing directories: raises `FileExistsError` iff the target
already exists and `exist_ok` is false; otherwise creates the missing
ancestors (parents as needed) and the target. -/
def pyMakedirs (fs : List String) (path : String) (exist_ok : Bool) :
    Except String (List String) :=
  if path ∈ fs ∧ exist_ok = false then Except.error "FileExistsError"
  else Except.ok (fs ++ (ancestorPaths path).filter (fun p => ¬ p ∈ fs))

/-- One observable effect of the run, in program order. -/
inductive Effect where
  | makedirs : String → Bool → Effect
  | saveImage : String → PILImage → Effect
  | writeFile : String → String → Effect
  | printLine : String → Effect
deriving Repr, DecidableEq

/-- The effect trace of the script after the directory-creation call:
build the canvas, draw the rings, run the text block (printing its warning,
if any), save the bitmap, write the two JSON files, print the completion
notice.  This part of the script cannot fail in the model. -/
def runEffects (env : Env) : List Effect :=
  Effect.makedirs icon_set_dir true ::
    (textStep env).2.map Effect.printLine ++
    [Effect.saveImage (ospathjoin icon_set_dir icon_filename) (finalImage env),
     Effect.writeFile (ospathjoin icon_set_dir "Contents.json") (renderJson 0 contents),
     Effect.writeFile (ospathjoin base_dir "Contents.json") (renderJson 0 assets_info),
     Effect.printLine "Icon assets generated successfully."]

/-- The whole script on an initial filesystem `fs`: the directory-creation
step runs first (with `exist_ok=True`) and any exception it raised would
abort the run; otherwise the run completes with its effect trace and the
updated directory list. -/
def run (env : Env) (fs : List String) : Except String (List Effect × List String) :=
  match pyMakedirs fs icon_set_dir true with
  | Except.error e => Except.error e
  | Except.ok fs2 => Except.ok (runEffects env, fs2)

/-! ## Trace accessors -/

/-- The `(path, content)` pairs of the file writes in a trace, in order. -/
def jsonWrites (es : List Effect) : List (String × String) :=
  es.filterMap (fun e => match e with
    | Effect.writeFile p s => some (p, s)
    | _ => none)

/-- The `(path, image)` pairs of the bitmap saves in a trace, in order. -/
def savedImages (es : List Effect) : List (String × PILImage) :=
  es.filterMap (fun e => match e with
    | Effect.saveImage p img => some (p, img)
    | _ => none)

/-- The filesystem-touching effects of a trace (console prints dropped). -/
def fsEffects (es : List Effect) : List Effect :=
  es.filter (fun e => match e with
    | Effect.printLine _ => false
    | _ => true)

/-- The console lines printed by a trace, in order. -/
def printedLines (es : List Effect) : List String :=
  es.filterMap (fun e => match e with
    | Effect.printLine s => some s
    | _ => none)

/-- Whether the first list is a prefix of the second. -/
def isPrefixChars : List Char → List Char → Bool
  | [], _ => true
  | _ :: _, [] => false
  | a :: as, b :: bs => a = b && isPrefixChars as bs

/-- Whether a printed line is a warning (it starts with `"Warning"`). -/
def isWarningLine (s : String) : Bool :=
  isPrefixChars "Warning".data s.data

/-- The printed lines that are warnings. -/
def warningLines (es : List Effect) : List String :=
  (printedLines es).filter isWarningLine

/-! ## An executable JSON parser

Used to settle the claims phrased about the written files "when parsed":
we re-parse the exact serialized strings and compare with the dict values
the script built. -/

/-- Drop leading JSON whitespace. -/
def skipWs : List Char → List Char
  | [] => []
  | c :: cs => if c = ' ' ∨ c = '\n' ∨ c = '\t' ∨ c = '\r' then skipWs cs else c :: cs

/-- Parse the body of a JSON string after the opening quote, returning the
decoded string and the input past the closing quote. -/
def parseStringBody : List Char → Option (String × List Char)
  | [] => none
  | c :: cs =>
    if c = '"' then some ("", cs)
    else if c = '\\' then
      match cs with
      | [] => none
      | e :: cs2 =>
        let dec : Option Char :=
          if e = '"' then some '"'
          else if e = '\\' then some '\\'
          else if e = 'n' then some '\n'
          else if e = 't' then some '\t'
          else if e = 'r' then some '\r'
          else none
        match dec with
        | none => none
        | some d => (parseStringBody cs2).map (fun p => (String.singleton d ++ p.1, p.2))
    else (parseStringBody cs).map (fun p => (String.singleton c ++ p.1, p.2))

/-- Split off a maximal run of decimal digits. -/
def takeDigits : List Char → List Char × List Char
  | [] => ([], [])
  | c :: cs =>
    if c.isDigit then
      let (ds, rest) := takeDigits cs
      (c :: ds, rest)
    else ([], c :: cs)

/-- Decimal value of a digit run. -/
def digitsToNat (ds : List Char) : Nat :=
  ds.foldl (fun n c => n * 10 + (c.toNat - 48)) 0

/-- Parse a JSON integer (optional minus sign, at least one digit). -/
def parseInt : List Char → Option (Int × List Char)
  | [] => none
  | c :: cs =>
    if c = '-' then
      match takeDigits cs with
      | ([], _) => none
      | (ds, rest) => some (-(digitsToNat ds : Int), rest)
    else
      match takeDigits (c :: cs) with
      | ([], _) => none
      | (ds, rest) => some ((digitsToNat ds : Int), rest)

mutual

/-- Parse one JSON value (fuel-indexed; fuel bounds the nesting depth). -/
def parseVal : Nat → List Char → Option (Json × List Char)
  | 0, _ => none
  | fuel + 1, cs0 =>
    match skipWs cs0 with
    | [] => none
    | c :: cs =>
      if c = '"' then (parseStringBody cs).map (fun p => (Json.str p.1, p.2))
      else if c = '[' then
        match skipWs cs with
        | ']' :: cs2 => some (Json.arr [], cs2)
        | cs2 => (parseItems fuel cs2).map (fun p => (Json.arr p.1, p.2))
      else if c = lbrace then
        match skipWs cs with
        | [] => none
        | d :: cs2 =>
          if d = rbrace then some (Json.obj [], cs2)
          else (parseFields fuel (d :: cs2)).map (fun p => (Json.obj p.1, p.2))
      else (parseInt (c :: cs)).map (fun p => (Json.num p.1, p.2))

/-- Parse the elements of a non-empty JSON array up to the closing bracket. -/
def parseItems : Nat → List Char → Option (List Json × List Char)
  | 0, _ => none
  | fuel + 1, cs =>
    match parseVal fuel cs with
    | none => none
    | some (v, rest) =>
      match skipWs rest with
      | ',' :: rest2 => (parseItems fuel rest2).map (fun p => (v :: p.1, p.2))
      | ']' :: rest2 => some ([v], rest2)
      | _ => none

/-- Parse the fields of a non-empty JSON object up to the closing brace. -/
def parseFields : Nat → List Char → Option (List (String × Json) × List Char)
  | 0, _ => none
  | fuel + 1, cs =>
    match skipWs cs with
    | [] => none
    | c :: cs2 =>
      if c = '"' then
        match parseStringBody cs2 with
        | none => none
        | some (k, rest) =>
          match skipWs rest with
          | ':' :: rest2 =>
            match parseVal fuel rest2 with
            | none => none
            | some (v, rest3) =>
              match skipWs rest3 with
              | [] => none
              | ',' :: rest4 => (parseFields fuel rest4).map (fun p => ((k, v) :: p.1, p.2))
              | d :: rest4 => if d = rbrace then some ([(k, v)], rest4) else none
          | _ => none
      else none

end

/-- Parse a complete JSON document (only whitespace may follow the value). -/
def Json.parse (s : String) : Option Json :=
  match parseVal (s.length + 1) s.data with
  | some (v, rest) => if skipWs rest = [] then some v else none
  | none => none

/-! ## Claim-support definitions -/

/-- Whether an `Except`-modelled library call raised. -/
def Except.failed : Except String α → Bool
  | Except.error _ => true
  | Except.ok _ => false

/-- Some call actually reachable inside the text-drawing block raised: the
truetype load, the text measurement, or the text rendering.  (A failing
`load_default` alone is unreachable when the truetype load succeeds.) -/
def textExceptionOccurs (env : Env) : Prop :=
  Except.failed env.truetype = true ∨ Except.failed env.textbbox = true ∨
    Except.failed env.draw_text = true

/-- The bounding box occupied by text drawn at anchor `pos`.  Modelled from
the imaging library's documented behaviour (PIL `ImageDraw`, default `"la"`
anchor): the bounding box measured at the origin, translated by the anchor
point. -/
def drawnTextBBox (pos : ℚ × ℚ) (bb : Int × Int × Int × Int) : ℚ × ℚ × ℚ × ℚ :=
  (pos.1 + (bb.1 : ℚ), pos.2 + (bb.2.1 : ℚ), pos.1 + (bb.2.2.1 : ℚ), pos.2 + (bb.2.2.2 : ℚ))

/-- Horizontal centre of a box `(x0, y0, x1, y1)`. -/
def bboxCenterX (bb : ℚ × ℚ × ℚ × ℚ) : ℚ := (bb.1 + bb.2.2.1) / 2

/-- Vertical centre of a box `(x0, y0, x1, y1)`. -/
def bboxCenterY (bb : ℚ × ℚ × ℚ × ℚ) : ℚ := (bb.2.1 + bb.2.2.2) / 2

/-- An arc stroke in the script's fixed style: accent `(0, 122, 255)`,
width 40. -/
def arcStyled : DrawOp → Bool
  | DrawOp.arc _ _ _ (0, 122, 255) 40 => true
  | _ => false

/-- A text draw in the script's fixed style: label `"TrollNFC"`, white fill,
and either the requested 180-pixel `arial.ttf` truetype font or the library
default font. -/
def textStyled : DrawOp → Bool
  | DrawOp.textDraw _ "TrollNFC" (FontChoice.truetype "arial.ttf" 180) (255, 255, 255) => true
  | DrawOp.textDraw _ "TrollNFC" FontChoice.default_font (255, 255, 255) => true
  | _ => false

/-- Environment where the truetype load raises but everything else succeeds
(the silent-fallback path), measured box `(0, 40, 800, 200)`. -/
def envTruetypeFails : Env :=
  ⟨Except.error "cannot open resource", Except.ok (), Except.ok (0, 40, 800, 200), Except.ok ()⟩

/-- Environment where the truetype load raises but everything else succeeds,
measured box `(4, 44, 816, 190)`. -/
def envFontFallback : Env :=
  ⟨Except.error "unknown font arial.ttf", Except.ok (), Except.ok (4, 44, 816, 190), Except.ok ()⟩

/-- Environment where the text measurement raises. -/
def envBBoxFails : Env :=
  ⟨Except.ok (), Except.ok (), Except.error "text measurement failed", Except.ok ()⟩

/-- Environment where both font loads raise. -/
def envBothFontsFail : Env :=
  ⟨Except.error "unknown font arial.ttf", Except.error "default font unavailable",
    Except.ok (0, 0, 1, 1), Except.ok ()⟩

/-- Environment where every library call succeeds, with a measured box whose
origin offsets are non-zero: `(0, 40, 800, 200)`. -/
def envOffsetBox : Env :=
  ⟨Except.ok (), Except.ok (), Except.ok (0, 40, 800, 200), Except.ok ()⟩

/-- Environment where every library call succeeds, with a measured box whose
origin offsets are zero: `(0, 0, 800, 160)`. -/
def envZeroOffsetBox : Env :=
  ⟨Except.ok (), Except.ok (), Except.ok (0, 0, 800, 160), Except.ok ()⟩

/-- Environment where every library call succeeds (generic witness runs). -/
def envAllOk : Env :=
  ⟨Except.ok (), Except.ok (), Except.ok (0, 0, 10, 10), Except.ok ()⟩

/-- A filesystem on which the whole output directory tree already exists. -/
def fsPreexisting : List String :=
  ["TrollNFC", "TrollNFC/Assets.xcassets", "TrollNFC/Assets.xcassets/AppIcon.appiconset"]

/-! ## Shared lemmas about the run -/

set_option maxRecDepth 100000 in
/-- The serialized icon-set manifest re-parses to the dict the script built. -/
theorem parse_contents : Json.parse (renderJson 0 contents) = some contents := rfl

set_option maxRecDepth 100000 in
/-- The serialized root manifest re-parses to the dict the script built. -/
theorem parse_assets_info : Json.parse (renderJson 0 assets_info) = some assets_info := rfl

/-- The directory-creation step never raises (it passes `exist_ok=True`),
so the run always completes with its effect trace. -/
theorem run_ok (env : Env) (fs : List String) :
    run env fs = Except.ok (runEffects env,
      fs ++ (ancestorPaths icon_set_dir).filter (fun p => ¬ p ∈ fs)) := by
  simp [run, pyMakedirs]

/-- Exactly one bitmap save appears in the trace: the final canvas at
`AppIcon.appiconset/icon.png`. -/
theorem savedImages_runEffects (env : Env) :
    savedImages (runEffects env) =
      [(ospathjoin icon_set_dir icon_filename, finalImage env)] := by
  simp [savedImages, runEffects, List.filterMap_append, List.filterMap_map, Function.comp]

/-- Exactly two file writes appear in the trace: the two manifests. -/
theorem jsonWrites_runEffects (env : Env) :
    jsonWrites (runEffects env) =
      [(ospathjoin icon_set_dir "Contents.json", renderJson 0 contents),
       (ospathjoin base_dir "Contents.json", renderJson 0 assets_info)] := by
  simp [jsonWrites, runEffects, List.filterMap_append, List.filterMap_map, Function.comp]

/-- The filesystem-touching effects of the trace, in order. -/
theorem fsEffects_runEffects (env : Env) :
    fsEffects (runEffects env) =
      [Effect.makedirs icon_set_dir true,
       Effect.saveImage (ospathjoin icon_set_dir icon_filename) (finalImage env),
       Effect.writeFile (ospathjoin icon_set_dir "Contents.json") (renderJson 0 contents),
       Effect.writeFile (ospathjoin base_dir "Contents.json") (renderJson 0 assets_info)] := by
  simp [fsEffects, runEffects, List.filter_append, List.filter_map, Function.comp]

/-- The console output: the text block's warnings, then the completion notice. -/
theorem printedLines_runEffects (env : Env) :
    printedLines (runEffects env) =
      (textStep env).2 ++ ["Icon assets generated successfully."] := by
  simp only [printedLines, runEffects, List.filterMap_append, List.filterMap_map,
    List.filterMap_cons, List.filterMap_nil]
  exact congrArg (fun l => l ++ ["Icon assets generated successfully."])
    (List.filterMap_some (textStep env).2)

/-- The text block either fails as a whole (no text drawn, one warning) or
succeeds (one white `"TrollNFC"` draw in the requested truetype font or the
default fallback, no warning). -/
theorem textStep_cases (env : Env) :
    (∃ e, textStep env = (none, [warningMsg e])) ∨
    (∃ pos font, textStep env = (some (DrawOp.textDraw pos text font (255, 255, 255)), []) ∧
      (font = FontChoice.truetype "arial.ttf" font_size ∨ font = FontChoice.default_font)) := by
  rcases env with ⟨tt, ld, bb, dt⟩
  rcases tt with e | u <;> rcases ld with e2 | u2 <;> rcases bb with e3 | ⟨l, t, r, b⟩ <;>
    rcases dt with e4 | u4 <;> simp [textStep] <;>
    exact ⟨_, _, _, ⟨⟨rfl, rfl⟩, rfl⟩, by simp⟩

/-- A warning is emitted by the text block iff the text draw was skipped. -/
theorem textStep_skip_iff_warn (env : Env) :
    (textStep env).2 ≠ [] ↔ (textStep env).1 = none := by
  rcases textStep_cases env with ⟨e, h⟩ | ⟨pos, font, h, _⟩ <;> rw [h] <;> simp

/-- When the truetype load raises, the block either skips the text or draws
it in the default fallback font. -/
theorem textStep_truetype_error (env : Env) (e : String)
    (h : env.truetype = Except.error e) :
    (textStep env).1 = none ∨
      ∃ pos, (textStep env).1 =
        some (DrawOp.textDraw pos text FontChoice.default_font (255, 255, 255)) := by
  rcases env with ⟨tt, ld, bb, dt⟩
  obtain rfl : tt = Except.error e := h
  rcases ld with e2 | u2 <;> rcases bb with e3 | ⟨l, t, r, b⟩ <;>
    rcases dt with e4 | u4 <;> simp [textStep]

/-- A successful text draw is positioned from the measured box exactly as
the source computes it: `((size - text_w) / 2, (size - text_h) / 2)`. -/
theorem textStep_success (env : Env) (l t r b : Int) (op : DrawOp)
    (hbb : env.textbbox = Except.ok (l, t, r, b)) (hop : (textStep env).1 = some op) :
    ∃ font, op = DrawOp.textDraw
        (((size : ℚ) - ((r : ℚ) - (l : ℚ))) / 2, ((size : ℚ) - ((b : ℚ) - (t : ℚ))) / 2)
        text font (255, 255, 255) ∧
      (font = FontChoice.truetype "arial.ttf" font_size ∨ font = FontChoice.default_font) := by
  rcases env with ⟨tt, ld, bb, dt⟩
  obtain rfl : bb = Except.ok (l, t, r, b) := hbb
  rcases tt with e | u <;> rcases ld with e2 | u2 <;> rcases dt with e4 | u4 <;>
    simp [textStep] at hop <;> exact ⟨_, hop.symm, by simp⟩

/-- The base canvas contains no text operation. -/
theorem baseImage_texts : baseImage.texts = [] := by decide

/-- The ring loop issues exactly the six arc strokes: radii 300, 220, 140
about the canvas centre `(512, 512)`, segments `[-60, 60]` and `[120, 240]`,
accent `(0, 122, 255)`, width 40. -/
theorem baseImage_arcs_eq : baseImage.arcs = List.flatMap ([300, 220, 140] : List Int) (fun r =>
    [DrawOp.arc (512 - r, 512 - r, 512 + r, 512 + r) (-60) 60 (0, 122, 255) 40,
     DrawOp.arc (512 - r, 512 - r, 512 + r, 512 + r) 120 240 (0, 122, 255) 40]) := by
  decide

/-- The saved canvas always has the declared mode, dimensions, background. -/
theorem finalImage_shape (env : Env) :
    (finalImage env).mode = "RGB" ∧ (finalImage env).width = 1024 ∧
    (finalImage env).height = 1024 ∧ (finalImage env).background = (20, 20, 20) := by
  cases h : (textStep env).1 with
  | none => simp only [finalImage, h]; exact ⟨rfl, rfl, rfl, rfl⟩
  | some op => cases op <;> simp only [finalImage, h, drawTextOp] <;> exact ⟨rfl, rfl, rfl, rfl⟩

/-- The text block never adds or removes arc strokes. -/
theorem finalImage_arcs (env : Env) : (finalImage env).arcs = baseImage.arcs := by
  cases h : (textStep env).1 with
  | none => simp [finalImage, h]
  | some op => cases op with
    | arc bbox a b f w => simp [finalImage, h]
    | textDraw pos s f c =>
      simp [finalImage, h, drawTextOp, PILImage.arcs, List.filter_append]

/-- Every text draw on the saved canvas is in the fixed style. -/
theorem finalImage_texts_styled (env : Env) :
    ((finalImage env).texts).all textStyled = true := by
  rcases textStep_cases env with ⟨e, h⟩ | ⟨pos, font, h, hf⟩
  · have h1 : (textStep env).1 = none := by rw [h]
    simp only [finalImage, h1]
    rw [baseImage_texts]
    rfl
  · have h1 : (textStep env).1 = some (DrawOp.textDraw pos text font (255, 255, 255)) := by
      rw [h]
    rcases hf with rfl | rfl <;>
      simp [finalImage, h1, drawTextOp, PILImage.texts, List.filter_append,
        textStyled, text, font_size] <;>
      decide

/-- Every arc stroke on the saved canvas is in the fixed style. -/
theorem finalImage_arcs_styled (env : Env) :
    ((finalImage env).arcs).all arcStyled = true := by
  rw [finalImage_arcs]; decide

/-! ## Claims -/

/-- C1: the icon-set `Contents.json` the generator writes, when parsed,
contains exactly 9 entries under `"images"`, in order the fixed
(size, idiom, scale) tuples (20x20, iphone, 2x) ... (1024x1024,
ios-marketing, 1x); every entry's `"filename"` equals `"icon.png"`, the
same name under which the canvas-export step writes the bitmap into the
same directory. -/
theorem C1_iconset_manifest :
    ∃ doc imgs,
      Json.parse (renderJson 0 contents) = some doc ∧
      doc.getKey "images" = some (Json.arr imgs) ∧
      imgs.length = 9 ∧
      imgs.map (fun j => ((j.getKey "size").bind Json.asStr,
          (j.getKey "idiom").bind Json.asStr, (j.getKey "scale").bind Json.asStr)) =
        [(some "20x20", some "iphone", some "2x"),
         (some "20x20", some "iphone", some "3x"),
         (some "29x29", some "iphone", some "2x"),
         (some "29x29", some "iphone", some "3x"),
         (some "40x40", some "iphone", some "2x"),
         (some "40x40", some "iphone", some "3x"),
         (some "60x60", some "iphone", some "2x"),
         (some "60x60", some "iphone", some "3x"),
         (some "1024x1024", some "ios-marketing", some "1x")] ∧
      imgs.map (fun j => (j.getKey "filename").bind Json.asStr) =
        List.replicate 9 (some icon_filename) ∧
      ∀ env : Env,
        savedImages (runEffects env) =
          [(ospathjoin icon_set_dir icon_filename, finalImage env)] ∧
        jsonWrites (runEffects env) =
          [(ospathjoin icon_set_dir "Contents.json", renderJson 0 contents),
           (ospathjoin base_dir "Contents.json", renderJson 0 assets_info)] := by
  exact ⟨contents, _, parse_contents, rfl, rfl, rfl, rfl,
    fun env => ⟨savedImages_runEffects env, jsonWrites_runEffects env⟩⟩

/-- C2: the `Contents.json` written at the asset-catalog root parses to
exactly the object with the single key `"info"` mapping to
`(author: "xcode", version: 1)`, and every run writes it there. -/
theorem C2_root_manifest :
    Json.parse (renderJson 0 assets_info) =
      some (Json.obj [("info", Json.obj [("author", Json.str "xcode"), ("version", Json.num 1)])]) ∧
    ∀ env : Env, (ospathjoin base_dir "Contents.json", renderJson 0 assets_info) ∈
      jsonWrites (runEffects env) := by
  refine ⟨parse_assets_info, fun env => ?_⟩
  rw [jsonWrites_runEffects]
  simp

/-- C4: after any invocation, the single saved bitmap is a 1024x1024 RGB
canvas with solid background, carrying exactly the three concentric ring
pairs of radii 300, 220, 140 about the canvas centre, each as two
120-degree segments `[-60, 60]` and `[120, 240]`, stroked 40 wide in the
single accent color. -/
theorem C4_bitmap_shape (env : Env) (fs : List String) :
    ∃ fs2 img,
      run env fs = Except.ok (runEffects env, fs2) ∧
      savedImages (runEffects env) = [(ospathjoin icon_set_dir icon_filename, img)] ∧
      img.mode = "RGB" ∧ img.width = 1024 ∧ img.height = 1024 ∧
      img.background = (20, 20, 20) ∧
      img.arcs = List.flatMap ([300, 220, 140] : List Int) (fun r =>
        [DrawOp.arc (512 - r, 512 - r, 512 + r, 512 + r) (-60) 60 (0, 122, 255) 40,
         DrawOp.arc (512 - r, 512 - r, 512 + r, 512 + r) 120 240 (0, 122, 255) 40]) := by
  obtain ⟨hm, hw, hh, hb⟩ := finalImage_shape env
  exact ⟨_, finalImage env, run_ok env fs, savedImages_runEffects env, hm, hw, hh, hb,
    (finalImage_arcs env).trans baseImage_arcs_eq⟩

/-- C7: the JSON files' bytes are a deterministic function of the fixed
in-program constants — any two runs, whatever their environments, write
byte-identical JSON contents, namely the fixed serializations of the two
dicts. -/
theorem C7_json_deterministic (e1 e2 : Env) :
    jsonWrites (runEffects e1) = jsonWrites (runEffects e2) ∧
    jsonWrites (runEffects e1) =
      [(ospathjoin icon_set_dir "Contents.json", renderJson 0 contents),
       (ospathjoin base_dir "Contents.json", renderJson 0 assets_info)] := by
  rw [jsonWrites_runEffects, jsonWrites_runEffects]
  exact ⟨rfl, rfl⟩

/-- C8: on every initial filesystem already containing the target output
directory, the directory-creation step (which passes `exist_ok=True`)
raises no error and the run proceeds to completion. -/
theorem C8_makedirs_tolerant (env : Env) (fs : List String)
    (h : icon_set_dir ∈ fs) :
    (∃ fs2, pyMakedirs fs icon_set_dir true = Except.ok fs2) ∧
    run env fs = Except.ok (runEffects env,
      fs ++ (ancestorPaths icon_set_dir).filter (fun p => ¬ p ∈ fs)) :=
  ⟨⟨fs ++ (ancestorPaths icon_set_dir).filter (fun p => ¬ p ∈ fs), by simp [pyMakedirs]⟩,
    run_ok env fs⟩

/-- C8 witness: a concrete filesystem with the whole tree pre-existing. -/
theorem C8_makedirs_tolerant_witness :
    icon_set_dir ∈ fsPreexisting ∧
    ((∃ fs2, pyMakedirs fsPreexisting icon_set_dir true = Except.ok fs2) ∧
      run envAllOk fsPreexisting = Except.ok (runEffects envAllOk,
        fsPreexisting ++ (ancestorPaths icon_set_dir).filter (fun p => ¬ p ∈ fsPreexisting))) :=
  ⟨by decide, C8_makedirs_tolerant envAllOk fsPreexisting (by decide)⟩

/-- C9: the undocumented visual-style constants have exactly the source's
values — background `(20, 20, 20)`, arc accent `(0, 122, 255)` at width 40,
white text fill `(255, 255, 255)`, font size 180, label `"TrollNFC"` — in
every run. -/
theorem C9_style_constants (env : Env) :
    font_size = 180 ∧ text = "TrollNFC" ∧
    (finalImage env).background = (20, 20, 20) ∧
    (finalImage env).arcs ≠ [] ∧
    ((finalImage env).arcs).all arcStyled = true ∧
    ((finalImage env).texts).all textStyled = true := by
  refine ⟨rfl, rfl, (finalImage_shape env).2.2.2, ?_, finalImage_arcs_styled env,
    finalImage_texts_styled env⟩
  rw [finalImage_arcs, baseImage_arcs_eq]
  decide

/-- C10: the run's filesystem effects are exactly the creation of the
directory tree `TrollNFC/Assets.xcassets/AppIcon.appiconset` (those three
nested directories and nothing else) and the three file writes `icon.png`,
the icon-set `Contents.json` and the catalog-root `Contents.json`. -/
theorem C10_frame_effects (env : Env) (fs : List String) :
    fsEffects (runEffects env) =
      [Effect.makedirs "TrollNFC/Assets.xcassets/AppIcon.appiconset" true,
       Effect.saveImage "TrollNFC/Assets.xcassets/AppIcon.appiconset/icon.png" (finalImage env),
       Effect.writeFile "TrollNFC/Assets.xcassets/AppIcon.appiconset/Contents.json"
         (renderJson 0 contents),
       Effect.writeFile "TrollNFC/Assets.xcassets/Contents.json" (renderJson 0 assets_info)] ∧
    run env fs = Except.ok (runEffects env,
      fs ++ (ancestorPaths icon_set_dir).filter (fun p => ¬ p ∈ fs)) ∧
    ancestorPaths icon_set_dir =
      ["TrollNFC", "TrollNFC/Assets.xcassets", "TrollNFC/Assets.xcassets/AppIcon.appiconset"] := by
  refine ⟨?_, run_ok env fs, by decide⟩
  rw [fsEffects_runEffects]
  rfl

/-- C3 counterexample: with the truetype load failing and every other call
succeeding, a text-drawing-step failure has occurred, the run completes —
yet no warning line is printed, refuting "it exits successfully after
printing a warning" for every text-drawing failure. -/
theorem C3_counterexample :
    textExceptionOccurs envTruetypeFails ∧
    run envTruetypeFails [] =
      Except.ok (runEffects envTruetypeFails, ancestorPaths icon_set_dir) ∧
    warningLines (runEffects envTruetypeFails) = [] := by
  refine ⟨Or.inl rfl, ?_, by decide⟩
  have h := run_ok envTruetypeFails []
  simpa using h

/-- C3 as amended: for every failure inside the text-drawing step the run
does not abort — it still saves the 1024x1024 RGB bitmap, writes both
well-formed (re-parseable) JSON files and ends with the completion notice —
but the warning is printed exactly when the text block fails as a whole
(text skipped); a truetype-load failure recovered by the default font
completes silently, with no warning. -/
theorem C3_text_failure_robustness (env : Env) (fs : List String)
    (h : textExceptionOccurs env) :
    run env fs = Except.ok (runEffects env,
      fs ++ (ancestorPaths icon_set_dir).filter (fun p => ¬ p ∈ fs)) ∧
    (∃ img, savedImages (runEffects env) = [(ospathjoin icon_set_dir icon_filename, img)] ∧
      img.mode = "RGB" ∧ img.width = 1024 ∧ img.height = 1024) ∧
    jsonWrites (runEffects env) =
      [(ospathjoin icon_set_dir "Contents.json", renderJson 0 contents),
       (ospathjoin base_dir "Contents.json", renderJson 0 assets_info)] ∧
    Json.parse (renderJson 0 contents) = some contents ∧
    Json.parse (renderJson 0 assets_info) = some assets_info ∧
    printedLines (runEffects env) = (textStep env).2 ++ ["Icon assets generated successfully."] ∧
    ((textStep env).2 ≠ [] ↔ (textStep env).1 = none) := by
  obtain ⟨hm, hw, hh, _⟩ := finalImage_shape env
  exact ⟨run_ok env fs, ⟨finalImage env, savedImages_runEffects env, hm, hw, hh⟩,
    jsonWrites_runEffects env, parse_contents, parse_assets_info,
    printedLines_runEffects env, textStep_skip_iff_warn env⟩

/-- C3 witness: the text-measurement call fails on an empty filesystem. -/
theorem C3_text_failure_robustness_witness :
    textExceptionOccurs envBBoxFails ∧
    (run envBBoxFails [] = Except.ok (runEffects envBBoxFails,
      [] ++ (ancestorPaths icon_set_dir).filter (fun p => ¬ p ∈ ([] : List String))) ∧
    (∃ img, savedImages (runEffects envBBoxFails) =
        [(ospathjoin icon_set_dir icon_filename, img)] ∧
      img.mode = "RGB" ∧ img.width = 1024 ∧ img.height = 1024) ∧
    jsonWrites (runEffects envBBoxFails) =
      [(ospathjoin icon_set_dir "Contents.json", renderJson 0 contents),
       (ospathjoin base_dir "Contents.json", renderJson 0 assets_info)] ∧
    Json.parse (renderJson 0 contents) = some contents ∧
    Json.parse (renderJson 0 assets_info) = some assets_info ∧
    printedLines (runEffects envBBoxFails) =
      (textStep envBBoxFails).2 ++ ["Icon assets generated successfully."] ∧
    ((textStep envBBoxFails).2 ≠ [] ↔ (textStep envBBoxFails).1 = none)) :=
  ⟨Or.inr (Or.inl rfl),
    C3_text_failure_robustness envBBoxFails [] (Or.inr (Or.inl rfl))⟩

/-- C5 counterexample: every call succeeds and the measured origin box is
`(0, 40, 800, 200)`; the text is drawn at `(112, 432)`, so the drawn box's
vertical centre is `552`, not `512` — the claimed centering fails. -/
theorem C5_counterexample :
    envOffsetBox.textbbox = Except.ok (0, 40, 800, 200) ∧
    (textStep envOffsetBox).1 =
      some (DrawOp.textDraw (112, 432) text (FontChoice.truetype "arial.ttf" 180)
        (255, 255, 255)) ∧
    bboxCenterY (drawnTextBBox (112, 432) (0, 40, 800, 200)) = 552 ∧
    (552 : ℚ) ≠ 512 := by
  refine ⟨rfl, ?_, by norm_num [bboxCenterY, drawnTextBBox], by norm_num⟩
  simp [textStep, envOffsetBox, size, font_size]
  norm_num

/-- C5 as amended: when text rendering succeeds with measured origin box
`(l, t, r, b)`, the drawn text's bounding box has centre
`(512 + l, 512 + t)` — the code centres the measured width and height about
the canvas centre, so the box itself is centred exactly when the measured
box's origin offsets `l` and `t` are zero. -/
theorem C5_text_centering (env : Env) (l t r b : Int) (op : DrawOp)
    (hbb : env.textbbox = Except.ok (l, t, r, b))
    (hop : (textStep env).1 = some op) :
    ∃ pos font, op = DrawOp.textDraw pos text font (255, 255, 255) ∧
      bboxCenterX (drawnTextBBox pos (l, t, r, b)) = 512 + (l : ℚ) ∧
      bboxCenterY (drawnTextBBox pos (l, t, r, b)) = 512 + (t : ℚ) := by
  obtain ⟨font, rfl, hf⟩ := textStep_success env l t r b op hbb hop
  refine ⟨_, font, rfl, ?_, ?_⟩ <;>
    simp [bboxCenterX, bboxCenterY, drawnTextBBox, size] <;> ring

/-- C5 witness: a zero-offset measured box `(0, 0, 800, 160)` gives a drawn
box centred at `(512, 512)`. -/
theorem C5_text_centering_witness :
    envZeroOffsetBox.textbbox = Except.ok (0, 0, 800, 160) ∧
    (textStep envZeroOffsetBox).1 =
      some (DrawOp.textDraw (112, 432) text (FontChoice.truetype "arial.ttf" 180)
        (255, 255, 255)) ∧
    (∃ pos font,
      DrawOp.textDraw (112, 432) text (FontChoice.truetype "arial.ttf" 180) (255, 255, 255) =
        DrawOp.textDraw pos text font (255, 255, 255) ∧
      bboxCenterX (drawnTextBBox pos (0, 0, 800, 160)) = 512 + ((0 : Int) : ℚ) ∧
      bboxCenterY (drawnTextBBox pos (0, 0, 800, 160)) = 512 + ((0 : Int) : ℚ)) :=
  ⟨rfl, by simp [textStep, envZeroOffsetBox, size, font_size]; norm_num,
    C5_text_centering envZeroOffsetBox 0 0 800 160 _ rfl
      (by simp [textStep, envZeroOffsetBox, size, font_size]; norm_num)⟩

/-- C6 counterexample: the truetype load fails, the default-font fallback
succeeds and the text is drawn — yet no warning line is printed, refuting
"a warning is printed in every case where the requested font could not be
used". -/
theorem C6_counterexample :
    Except.failed envFontFallback.truetype = true ∧
    (textStep envFontFallback).1 =
      some (DrawOp.textDraw (106, 439) text FontChoice.default_font (255, 255, 255)) ∧
    warningLines (runEffects envFontFallback) = [] := by
  refine ⟨rfl, ?_, by decide⟩
  simp [textStep, envFontFallback, size, font_size]
  norm_num

/-- C6 as amended: whenever loading the requested font fails, the run falls
back to the default font or skips text rendering; a warning line is printed
exactly when the whole text block fails (text skipped) — the successful
default-font substitution is silent. -/
theorem C6_font_fallback (env : Env) (e : String)
    (h : env.truetype = Except.error e) :
    ((textStep env).1 = none ∨
      ∃ pos, (textStep env).1 =
        some (DrawOp.textDraw pos text FontChoice.default_font (255, 255, 255))) ∧
    printedLines (runEffects env) = (textStep env).2 ++ ["Icon assets generated successfully."] ∧
    ((textStep env).2 ≠ [] ↔ (textStep env).1 = none) :=
  ⟨textStep_truetype_error env e h, printedLines_runEffects env, textStep_skip_iff_warn env⟩

/-- C6 witness: both font loads fail, the text is skipped with a warning. -/
theorem C6_font_fallback_witness :
    envBothFontsFail.truetype = Except.error "unknown font arial.ttf" ∧
    (((textStep envBothFontsFail).1 = none ∨
      ∃ pos, (textStep envBothFontsFail).1 =
        some (DrawOp.textDraw pos text FontChoice.default_font (255, 255, 255))) ∧
    printedLines (runEffects envBothFontsFail) =
      (textStep envBothFontsFail).2 ++ ["Icon assets generated successfully."] ∧
    ((textStep envBothFontsFail).2 ≠ [] ↔ (textStep envBothFontsFail).1 = none)) :=
  ⟨rfl, C6_font_fallback envBothFontsFail "unknown font arial.ttf" rfl⟩
